import Mathlib

/-!
Verification of the shared IPAM reconciliation logic (`shared.go`):
the naming resolver `NameFor`, the failure-reporting helper
`LogEventAndFail`, and the two reconciliation handlers
`IpAddressCreatedOrUpdated` and `IpAddressDeleted`.

External collaborators (the IPAM backend, the Kubernetes resource store
and the event recorder) are modelled as an environment of response
functions; each handler additionally produces a trace recording the
backend calls it made, the store updates it attempted and the events it
emitted.  A Go `panic` (the template-rendering failure in `NameFor`) is
modelled as a distinguished handler outcome.
-/

namespace IpamShared

/-- Spec of an IpAddress resource: optional explicit display name and
optional reference query (`Spec.Name`, `Spec.Ref`). -/
structure IpAddressSpec where
  Name : String
  Ref : String
deriving DecidableEq

/-- Status of an IpAddress resource: assigned address, resolved name and
the provider identity that performed the assignment. -/
structure IpAddressStatus where
  Address : String
  Name : String
  Provider : String
deriving DecidableEq

/-- The IpAddress resource: identity (namespace, name), spec and status. -/
structure IpAddress where
  Namespace : String
  Name : String
  Spec : IpAddressSpec
  Status : IpAddressStatus
deriving DecidableEq

/-- The shared controller configuration (`SharedController` in the source).
The Kubernetes client, IPAM client and IPAM backend handles are modelled
separately by `Env`; what remains is the tag, the compiled name template —
modelled as a function from the three template inputs (Tag, Namespace,
Name) to either the rendered string or a rendering error — and the
provider identity `IpamName`. -/
structure SharedController where
  Tag : String
  NameTemplate : String → String → String → Except String String
  IpamName : String

/-- One call to the IPAM backend, as recorded in a handler trace. -/
inductive IpamCall where
  | assign (name : String)
  | search (query : String) (exact : Bool)
  | unassign (address : String)
deriving DecidableEq

/-- Responses of the external collaborators: the IPAM backend
(`Assign`, `Search`, `Unassign`) and the resource store update. -/
structure Env where
  assign : String → Except String String
  search : String → Bool → Except String (List String)
  unassign : String → Except String Unit
  update : IpAddress → Except String IpAddress

/-- Trace of a handler run: IPAM backend calls made, store updates
attempted (the object passed to `Update`), and events emitted
(message, isWarning). -/
structure Trace where
  ipamCalls : List IpamCall
  updates : List IpAddress
  events : List (String × Bool)
deriving DecidableEq

/-- The empty trace. -/
def emptyTrace : Trace := ⟨[], [], []⟩

/-- Outcome of a handler: `ok` for a nil error return, `fail msg` for a
non-nil error with message `msg`, `panicked msg` for a Go panic (only the
template-rendering failure inside `NameFor`). -/
inductive HandlerResult where
  | ok
  | fail (message : String)
  | panicked (message : String)
deriving DecidableEq

/-- `NameFor` (shared.go lines 31-53): return `Spec.Name` verbatim when it
is non-empty, otherwise render the configured template with the inputs
Tag, Namespace and Name; a rendering error is returned as `Except.error`
(the source panics on it). -/
def NameFor (c : SharedController) (a : IpAddress) : Except String String :=
  if a.Spec.Name ≠ "" then
    Except.ok a.Spec.Name
  else
    c.NameTemplate c.Tag a.Namespace a.Name

/-- `LogEventAndFail` (shared.go lines 87-91): emit a Warning event with
the given message against the resource and return that same message as
the handler's error. -/
def LogEventAndFail (message : String) (t : Trace) : HandlerResult × Trace :=
  (HandlerResult.fail message, { t with events := t.events ++ [(message, true)] })

/-- The deep copy of the resource with its status fields set
(shared.go lines 127-130): `Status.Address := ip`, `Status.Name := oname`,
`Status.Provider := c.IpamName`. -/
def withStatus (c : SharedController) (a : IpAddress) (oname ip : String) : IpAddress :=
  { a with Status := { Address := ip, Name := oname, Provider := c.IpamName } }

/-- The write-back tail of `IpAddressCreatedOrUpdated` (shared.go lines
127-136): deep-copy the resource, set `Status.Address`, `Status.Name`,
`Status.Provider`, attempt the store update, and on update failure report
via `LogEventAndFail`. -/
def updateObject (c : SharedController) (env : Env) (a : IpAddress)
    (oname ip : String) (t : Trace) : HandlerResult × Trace :=
  match env.update (withStatus c a oname ip) with
  | Except.error e =>
      LogEventAndFail ("assigned address " ++ ip ++ " for '" ++ a.Namespace ++ "-"
        ++ a.Name ++ "', but could not update object: " ++ e)
        { t with updates := t.updates ++ [withStatus c a oname ip] }
  | Except.ok _ =>
      (HandlerResult.ok, { t with updates := t.updates ++ [withStatus c a oname ip] })

/-- `IpAddressCreatedOrUpdated` (shared.go lines 93-145). `NameFor` runs
first, unconditionally; if `Status.Address` is empty, an address is
obtained by `Assign` (empty `Spec.Ref`) or by an exact `Search` that must
return exactly one match (non-empty `Spec.Ref`), then written back;
otherwise nothing is done. -/
def IpAddressCreatedOrUpdated (c : SharedController) (env : Env)
    (a : IpAddress) : HandlerResult × Trace :=
  match NameFor c a with
  | Except.error e => (HandlerResult.panicked e, emptyTrace)
  | Except.ok oname =>
    if a.Status.Address = "" then
      if a.Spec.Ref = "" then
        match env.assign oname with
        | Except.error e =>
            LogEventAndFail ("could not assign new address for '" ++ a.Namespace
              ++ "-" ++ a.Name ++ "': " ++ e)
              { emptyTrace with ipamCalls := [IpamCall.assign oname] }
        | Except.ok ip =>
            updateObject c env a oname ip
              { emptyTrace with ipamCalls := [IpamCall.assign oname] }
      else
        match env.search a.Spec.Ref true with
        | Except.error e =>
            LogEventAndFail ("error searching for address matching '" ++ a.Spec.Ref
              ++ "' for '" ++ a.Namespace ++ "-" ++ a.Name ++ "': " ++ e)
              { emptyTrace with ipamCalls := [IpamCall.search a.Spec.Ref true] }
        | Except.ok addresses =>
          if addresses.length = 0 then
            LogEventAndFail ("did not find address matching '" ++ a.Spec.Ref
              ++ "' for '" ++ a.Namespace ++ "-" ++ a.Name ++ "'")
              { emptyTrace with ipamCalls := [IpamCall.search a.Spec.Ref true] }
          else if addresses.length > 1 then
            LogEventAndFail ("found " ++ toString addresses.length
              ++ " addresses matching '" ++ a.Spec.Ref ++ "' for '" ++ a.Namespace
              ++ "-" ++ a.Name ++ "', need exactly one")
              { emptyTrace with ipamCalls := [IpamCall.search a.Spec.Ref true] }
          else
            updateObject c env a oname (addresses.headD "")
              { emptyTrace with ipamCalls := [IpamCall.search a.Spec.Ref true] }
    else
      (HandlerResult.ok, emptyTrace)

/-- `IpAddressDeleted` (shared.go lines 147-178): skip when the status
carries a non-empty foreign provider, when no address was ever assigned,
or when the resource is a reference; otherwise call `Unassign` on the
assigned address, reporting failure via `LogEventAndFail`. -/
def IpAddressDeleted (c : SharedController) (env : Env)
    (a : IpAddress) : HandlerResult × Trace :=
  if a.Status.Provider ≠ "" ∧ a.Status.Provider ≠ c.IpamName then
    (HandlerResult.ok, emptyTrace)
  else if a.Status.Address = "" then
    (HandlerResult.ok, emptyTrace)
  else if a.Spec.Ref ≠ "" then
    (HandlerResult.ok, emptyTrace)
  else
    match env.unassign a.Status.Address with
    | Except.error e =>
        LogEventAndFail ("could not unassign address " ++ a.Status.Address ++ " for '"
          ++ a.Namespace ++ "-" ++ a.Name ++ "' from IPAM: " ++ e)
          { emptyTrace with ipamCalls := [IpamCall.unassign a.Status.Address] }
    | Except.ok _ =>
        (HandlerResult.ok, { emptyTrace with ipamCalls := [IpamCall.unassign a.Status.Address] })

/-- Modelled from the spec: rendering of a Go `text/template` restricted to
the three recognized placeholders Tag, Namespace and Name (the template
library is external to this repository).  Substitutes each occurrence of
a placeholder in the character stream by the corresponding input. -/
def renderChars (tag ns nm : String) : List Char → List Char
  | '\x7b' :: '\x7b' :: '.' :: 'T' :: 'a' :: 'g' :: '\x7d' :: '\x7d' :: rest =>
      tag.data ++ renderChars tag ns nm rest
  | '\x7b' :: '\x7b' :: '.' :: 'N' :: 'a' :: 'm' :: 'e' :: 's' :: 'p' :: 'a' :: 'c' :: 'e' :: '\x7d' :: '\x7d' :: rest =>
      ns.data ++ renderChars tag ns nm rest
  | '\x7b' :: '\x7b' :: '.' :: 'N' :: 'a' :: 'm' :: 'e' :: '\x7d' :: '\x7d' :: rest =>
      nm.data ++ renderChars tag ns nm rest
  | ch :: rest => ch :: renderChars tag ns nm rest
  | [] => []

/-- Modelled from the spec: render a template string with the three named
inputs Tag, Namespace, Name. -/
def renderTemplate (tmpl tag ns nm : String) : String :=
  String.mk (renderChars tag ns nm tmpl.data)

/-- The template string used in the spec's template-resolution scenario,
written with escaped braces. -/
def goTemplateString : String :=
  "\x7b\x7b.Tag\x7d\x7d-\x7b\x7b.Namespace\x7d\x7d-\x7b\x7b.Name\x7d\x7d"

/-- A template function that renders the spec's scenario template. -/
def okTemplateFn : String → String → String → Except String String :=
  fun tag ns nm => Except.ok (renderTemplate goTemplateString tag ns nm)

/-- A concrete controller with tag `prod`, the scenario template and
provider identity `prod-ipam`. -/
def prodController : SharedController := ⟨"prod", okTemplateFn, "prod-ipam"⟩

/-- A concrete controller whose template always fails to render. -/
def badTemplateController : SharedController :=
  ⟨"prod", fun _ _ _ => Except.error "template boom", "prod-ipam"⟩

/-- A concrete environment where all collaborator calls succeed. -/
def okEnv : Env :=
  ⟨fun _ => Except.ok "10.0.0.5", fun _ _ => Except.ok ["10.0.0.7"],
   fun _ => Except.ok (), fun a => Except.ok a⟩

/-- A concrete resource that already carries an assigned address. -/
def assignedResource : IpAddress :=
  ⟨"default", "foo", ⟨"", ""⟩, ⟨"10.0.0.1", "foo-name", "prod-ipam"⟩⟩

/-- A concrete unassigned resource with an explicit `Spec.Name`. -/
def webResource : IpAddress := ⟨"default", "foo", ⟨"web1", ""⟩, ⟨"", "", ""⟩⟩

/-- The resource of the spec's template-resolution scenario:
namespace `ns1`, name `a`, no explicit name. -/
def templateScenarioResource : IpAddress := ⟨"ns1", "a", ⟨"", ""⟩, ⟨"", "", ""⟩⟩

/-- Claim C1 as stated is false at a concrete input: on a resource whose
`Status.Address` is non-empty but whose `Spec.Name` is empty and whose
configured template fails to render, `IpAddressCreatedOrUpdated` does not
return success — it panics inside the unconditional `NameFor` call. -/
theorem C1_counterexample :
    assignedResource.Status.Address ≠ "" ∧
    (IpAddressCreatedOrUpdated badTemplateController okEnv assignedResource).1 ≠
      HandlerResult.ok := by
  decide

/-- Claim C1 (amended): for every resource whose `Status.Address` is
non-empty and whose name resolution succeeds (`Spec.Name` set, or the
template renders without error), `IpAddressCreatedOrUpdated` makes no
IPAM backend call, attempts no store update, emits no event, and returns
success. -/
theorem C1_idempotent_redelivery (c : SharedController) (env : Env)
    (a : IpAddress) (oname : String)
    (hname : NameFor c a = Except.ok oname)
    (haddr : a.Status.Address ≠ "") :
    IpAddressCreatedOrUpdated c env a = (HandlerResult.ok, emptyTrace) := by
  unfold IpAddressCreatedOrUpdated
  rw [hname]
  simp [haddr]

/-- Witness for C1: the amended theorem at a concrete already-assigned
resource. -/
theorem C1_witness :
    IpAddressCreatedOrUpdated prodController okEnv assignedResource =
      (HandlerResult.ok, emptyTrace) :=
  C1_idempotent_redelivery prodController okEnv assignedResource
    "prod-default-foo" rfl (by decide)

/-- Claim C6: for every resource with non-empty `Spec.Name`, `NameFor`
returns `Spec.Name` verbatim, regardless of the controller (template,
tag) and of the resource's namespace and name. -/
theorem C6_explicit_name_precedence (c : SharedController) (a : IpAddress)
    (h : a.Spec.Name ≠ "") :
    NameFor c a = Except.ok a.Spec.Name := by
  unfold NameFor
  simp [h]

/-- Witness for C6 at `Spec.Name = "web1"`. -/
theorem C6_witness :
    NameFor prodController webResource = Except.ok webResource.Spec.Name :=
  C6_explicit_name_precedence prodController webResource (by decide)

/-- Claim C7: for every resource with empty `Spec.Name`, `NameFor` returns
the configured template rendered with the three inputs Tag (the
controller's tag), Namespace and Name; and concretely, with tag `prod`,
namespace `ns1`, resource name `a` and the template
(escaped) `\x7b\x7b.Tag\x7d\x7d-\x7b\x7b.Namespace\x7d\x7d-\x7b\x7b.Name\x7d\x7d`,
the resolved name is `prod-ns1-a`. -/
theorem C7_template_resolution (c : SharedController) (a : IpAddress)
    (h : a.Spec.Name = "") :
    NameFor c a = c.NameTemplate c.Tag a.Namespace a.Name ∧
    NameFor prodController templateScenarioResource = Except.ok "prod-ns1-a" := by
  constructor
  · unfold NameFor
    simp [h]
  · rfl

/-- Witness for C7 at the spec's template-resolution scenario. -/
theorem C7_witness :
    NameFor prodController templateScenarioResource =
      prodController.NameTemplate prodController.Tag
        templateScenarioResource.Namespace templateScenarioResource.Name ∧
    NameFor prodController templateScenarioResource = Except.ok "prod-ns1-a" :=
  C7_template_resolution prodController templateScenarioResource (by decide)

/-- Claim C9: `NameFor` runs before the `Status.Address` check, so on a
resource with empty `Spec.Name` whose template fails to render, the
handler aborts (panics) with the rendering error even when
`Status.Address` is already set — the otherwise no-op re-delivery path. -/
theorem C9_template_panic_on_redelivery (c : SharedController) (env : Env)
    (a : IpAddress) (e : String)
    (hspec : a.Spec.Name = "")
    (_haddr : a.Status.Address ≠ "")
    (herr : c.NameTemplate c.Tag a.Namespace a.Name = Except.error e) :
    (IpAddressCreatedOrUpdated c env a).1 = HandlerResult.panicked e := by
  unfold IpAddressCreatedOrUpdated NameFor
  simp [hspec, herr]

/-- Witness for C9 at a concrete assigned resource and failing template. -/
theorem C9_witness :
    (IpAddressCreatedOrUpdated badTemplateController okEnv assignedResource).1 =
      HandlerResult.panicked "template boom" :=
  C9_template_panic_on_redelivery badTemplateController okEnv assignedResource
    "template boom" (by decide) (by decide) rfl

/-- A concrete resource assigned by a different provider. -/
def foreignResource : IpAddress :=
  ⟨"default", "foo", ⟨"", ""⟩, ⟨"10.0.0.1", "foo-name", "other"⟩⟩

/-- A concrete assigned resource whose `Status.Provider` is empty. -/
def orphanProviderResource : IpAddress :=
  ⟨"default", "foo", ⟨"", ""⟩, ⟨"10.0.0.2", "foo-name", ""⟩⟩

/-- A concrete fresh resource: nothing assigned, no reference. -/
def freshResource : IpAddress := ⟨"default", "foo", ⟨"", ""⟩, ⟨"", "", ""⟩⟩

/-- A concrete environment whose `Assign` fails. -/
def failAssignEnv : Env :=
  ⟨fun _ => Except.error "pool exhausted", fun _ _ => Except.ok [],
   fun _ => Except.ok (), fun a => Except.ok a⟩

/-- Claim C2: `IpAddressDeleted` calls `Unassign(Status.Address)` exactly
when the provider is empty or this instance's, the address is non-empty
and `Spec.Ref` is empty; in every other case it returns success with no
backend call, no update and no event. -/
theorem C2_unassign_iff_owned (c : SharedController) (env : Env) (a : IpAddress) :
    ((IpAddressDeleted c env a).2.ipamCalls = [IpamCall.unassign a.Status.Address] ↔
      ((a.Status.Provider = "" ∨ a.Status.Provider = c.IpamName) ∧
        a.Status.Address ≠ "" ∧ a.Spec.Ref = "")) ∧
    (¬((a.Status.Provider = "" ∨ a.Status.Provider = c.IpamName) ∧
        a.Status.Address ≠ "" ∧ a.Spec.Ref = "") →
      IpAddressDeleted c env a = (HandlerResult.ok, emptyTrace)) := by
  unfold IpAddressDeleted
  split_ifs with h1 h2 h3
  · refine ⟨?_, fun _ => rfl⟩
    simp [emptyTrace]
    tauto
  · refine ⟨?_, fun _ => rfl⟩
    simp [emptyTrace]
    tauto
  · refine ⟨?_, fun _ => rfl⟩
    simp [emptyTrace]
    tauto
  · have hprov : a.Status.Provider = "" ∨ a.Status.Provider = c.IpamName := by
      tauto
    have href : a.Spec.Ref = "" := not_ne_iff.mp h3
    have hcond : (a.Status.Provider = "" ∨ a.Status.Provider = c.IpamName) ∧
        a.Status.Address ≠ "" ∧ a.Spec.Ref = "" := ⟨hprov, h2, href⟩
    cases hu : env.unassign a.Status.Address with
    | error e =>
        exact ⟨iff_of_true rfl hcond, fun hn => absurd hcond hn⟩
    | ok u =>
        exact ⟨iff_of_true rfl hcond, fun hn => absurd hcond hn⟩

/-- Witness for C2: a foreign-provider resource is left untouched. -/
theorem C2_witness :
    IpAddressDeleted prodController okEnv foreignResource =
      (HandlerResult.ok, emptyTrace) :=
  (C2_unassign_iff_owned prodController okEnv foreignResource).2 (by decide)

/-- Claim C10: on deletion of a resource with non-empty `Status.Address`
and empty `Spec.Ref`, `Unassign(Status.Address)` is called exactly when
`Status.Provider` is empty or equals this instance's identity — an empty
provider is treated as owned, and the foreign-provider skip applies only
to a non-empty provider different from this instance's. -/
theorem C10_empty_provider_owned (c : SharedController) (env : Env) (a : IpAddress)
    (haddr : a.Status.Address ≠ "") (href : a.Spec.Ref = "") :
    (IpamCall.unassign a.Status.Address ∈ (IpAddressDeleted c env a).2.ipamCalls ↔
      (a.Status.Provider = "" ∨ a.Status.Provider = c.IpamName)) := by
  unfold IpAddressDeleted
  by_cases h1 : a.Status.Provider ≠ "" ∧ a.Status.Provider ≠ c.IpamName
  · rw [if_pos h1]
    simp [emptyTrace]
    tauto
  · rw [if_neg h1, if_neg haddr, if_neg (not_ne_iff.mpr href)]
    have hprov : a.Status.Provider = "" ∨ a.Status.Provider = c.IpamName := by
      tauto
    cases hu : env.unassign a.Status.Address with
    | error e => exact iff_of_true (by simp [LogEventAndFail, emptyTrace]) hprov
    | ok u => exact iff_of_true (by simp [emptyTrace]) hprov

/-- Witness for C10: deleting a resource with empty provider does call
`Unassign`. -/
theorem C10_witness :
    (IpamCall.unassign orphanProviderResource.Status.Address ∈
        (IpAddressDeleted prodController okEnv orphanProviderResource).2.ipamCalls ↔
      (orphanProviderResource.Status.Provider = "" ∨
        orphanProviderResource.Status.Provider = prodController.IpamName)) :=
  C10_empty_provider_owned prodController okEnv orphanProviderResource
    (by decide) rfl

/-- Claim C3: on an unassigned resource, if the creation path fails before
persistence (`Assign` errors; or `Search` errors, or returns zero or more
than one match), the handler returns a non-nil error and attempts no
store update. -/
theorem C3_early_failure (c : SharedController) (env : Env) (a : IpAddress)
    (oname : String)
    (hname : NameFor c a = Except.ok oname)
    (haddr : a.Status.Address = "")
    (hfail : (a.Spec.Ref = "" ∧ ∃ e, env.assign oname = Except.error e) ∨
             (a.Spec.Ref ≠ "" ∧ ((∃ e, env.search a.Spec.Ref true = Except.error e) ∨
               (∃ l, env.search a.Spec.Ref true = Except.ok l ∧ l.length ≠ 1)))) :
    (∃ m, (IpAddressCreatedOrUpdated c env a).1 = HandlerResult.fail m) ∧
    (IpAddressCreatedOrUpdated c env a).2.updates = [] := by
  unfold IpAddressCreatedOrUpdated
  simp only [hname]
  rw [if_pos haddr]
  rcases hfail with ⟨href, e, he⟩ | ⟨href, hrest⟩
  · rw [if_pos href, he]
    simp [LogEventAndFail, emptyTrace]
  · rw [if_neg href]
    rcases hrest with ⟨e, he⟩ | ⟨l, hl, hlen⟩
    · rw [he]
      simp [LogEventAndFail, emptyTrace]
    · simp only [hl]
      rcases Nat.eq_zero_or_pos l.length with h0 | hpos
      · rw [if_pos h0]
        simp [LogEventAndFail, emptyTrace]
      · have hgt : l.length > 1 := by omega
        have h0' : ¬(l.length = 0) := by omega
        rw [if_neg h0', if_pos hgt]
        simp [LogEventAndFail, emptyTrace]

/-- Witness for C3: a failing `Assign` on a fresh resource yields an error
and no update attempt. -/
theorem C3_witness :
    (∃ m, (IpAddressCreatedOrUpdated prodController failAssignEnv freshResource).1 =
        HandlerResult.fail m) ∧
    (IpAddressCreatedOrUpdated prodController failAssignEnv freshResource).2.updates = [] :=
  C3_early_failure prodController failAssignEnv freshResource "prod-default-foo"
    rfl rfl (Or.inl ⟨rfl, "pool exhausted", rfl⟩)

/-- A concrete environment whose store update fails. -/
def failUpdateEnv : Env :=
  ⟨fun _ => Except.ok "10.0.0.5", fun _ _ => Except.ok ["10.0.0.7"],
   fun _ => Except.ok (), fun _ => Except.error "conflict"⟩

/-- Claim C4: when the handler succeeds on an unassigned resource, the
object written to the store is the resource with `Status.Address` set to
the backend-provided address (`Assign` result for empty `Spec.Ref`, the
single `Search` match otherwise), `Status.Name` set to the resolved name
and `Status.Provider` set to this instance's identity, and the handler
returns success. -/
theorem C4_success_persists (c : SharedController) (env : Env) (a : IpAddress)
    (oname ip : String) (r : IpAddress)
    (hname : NameFor c a = Except.ok oname)
    (haddr : a.Status.Address = "")
    (hip : (a.Spec.Ref = "" ∧ env.assign oname = Except.ok ip) ∨
           (a.Spec.Ref ≠ "" ∧ env.search a.Spec.Ref true = Except.ok [ip]))
    (hupd : env.update (withStatus c a oname ip) = Except.ok r) :
    (IpAddressCreatedOrUpdated c env a).1 = HandlerResult.ok ∧
    (IpAddressCreatedOrUpdated c env a).2.updates = [withStatus c a oname ip] ∧
    (withStatus c a oname ip).Status.Address = ip ∧
    (withStatus c a oname ip).Status.Name = oname ∧
    (withStatus c a oname ip).Status.Provider = c.IpamName := by
  have hmain : (IpAddressCreatedOrUpdated c env a).1 = HandlerResult.ok ∧
      (IpAddressCreatedOrUpdated c env a).2.updates = [withStatus c a oname ip] := by
    unfold IpAddressCreatedOrUpdated
    simp only [hname]
    rw [if_pos haddr]
    rcases hip with ⟨href, hass⟩ | ⟨href, hsea⟩
    · rw [if_pos href]
      simp [hass, updateObject, hupd, emptyTrace]
    · rw [if_neg href]
      simp [hsea, updateObject, hupd, emptyTrace]
  exact ⟨hmain.1, hmain.2, rfl, rfl, rfl⟩

/-- Witness for C4: the spec's end-to-end scenario — fresh resource in
`default`/`foo`, `Assign` returns `10.0.0.5`, the update succeeds. -/
theorem C4_witness :
    (IpAddressCreatedOrUpdated prodController okEnv freshResource).1 = HandlerResult.ok ∧
    (IpAddressCreatedOrUpdated prodController okEnv freshResource).2.updates =
      [withStatus prodController freshResource "prod-default-foo" "10.0.0.5"] ∧
    (withStatus prodController freshResource "prod-default-foo" "10.0.0.5").Status.Address =
      "10.0.0.5" ∧
    (withStatus prodController freshResource "prod-default-foo" "10.0.0.5").Status.Name =
      "prod-default-foo" ∧
    (withStatus prodController freshResource "prod-default-foo" "10.0.0.5").Status.Provider =
      prodController.IpamName :=
  C4_success_persists prodController okEnv freshResource "prod-default-foo" "10.0.0.5"
    (withStatus prodController freshResource "prod-default-foo" "10.0.0.5") rfl rfl
    (Or.inl ⟨rfl, rfl⟩) rfl

/-- Claim C5: when the store update fails after a successful allocation,
the handler returns a non-nil error whose message contains the assigned
address, and no compensating `Unassign` of that address is performed. -/
theorem C5_persistence_failure_orphans (c : SharedController) (env : Env)
    (a : IpAddress) (oname ip e : String)
    (hname : NameFor c a = Except.ok oname)
    (haddr : a.Status.Address = "")
    (hip : (a.Spec.Ref = "" ∧ env.assign oname = Except.ok ip) ∨
           (a.Spec.Ref ≠ "" ∧ env.search a.Spec.Ref true = Except.ok [ip]))
    (hupd : env.update (withStatus c a oname ip) = Except.error e) :
    (∃ m, (IpAddressCreatedOrUpdated c env a).1 = HandlerResult.fail m ∧
      ip.data <:+: m.data) ∧
    (∀ addr, IpamCall.unassign addr ∉ (IpAddressCreatedOrUpdated c env a).2.ipamCalls) := by
  rcases hip with ⟨href, hass⟩ | ⟨href, hsea⟩
  · have hrun : IpAddressCreatedOrUpdated c env a =
        LogEventAndFail ("assigned address " ++ ip ++ " for '" ++ a.Namespace ++ "-"
          ++ a.Name ++ "', but could not update object: " ++ e)
          { emptyTrace with
            ipamCalls := [IpamCall.assign oname]
            updates := [withStatus c a oname ip] } := by
      unfold IpAddressCreatedOrUpdated
      simp only [hname]
      rw [if_pos haddr, if_pos href]
      simp [hass, updateObject, hupd, emptyTrace]
    refine ⟨⟨"assigned address " ++ ip ++ " for '" ++ a.Namespace ++ "-" ++ a.Name
      ++ "', but could not update object: " ++ e, ?_, ?_⟩, ?_⟩
    · rw [hrun]
      rfl
    · refine ⟨"assigned address ".data, (" for '" ++ a.Namespace ++ "-" ++ a.Name
        ++ "', but could not update object: " ++ e).data, ?_⟩
      simp [String.data_append, List.append_assoc]
    · intro addr
      rw [hrun]
      simp [LogEventAndFail, emptyTrace]
  · have hrun : IpAddressCreatedOrUpdated c env a =
        LogEventAndFail ("assigned address " ++ ip ++ " for '" ++ a.Namespace ++ "-"
          ++ a.Name ++ "', but could not update object: " ++ e)
          { emptyTrace with
            ipamCalls := [IpamCall.search a.Spec.Ref true]
            updates := [withStatus c a oname ip] } := by
      unfold IpAddressCreatedOrUpdated
      simp only [hname]
      rw [if_pos haddr, if_neg href]
      simp [hsea, updateObject, hupd, emptyTrace]
    refine ⟨⟨"assigned address " ++ ip ++ " for '" ++ a.Namespace ++ "-" ++ a.Name
      ++ "', but could not update object: " ++ e, ?_, ?_⟩, ?_⟩
    · rw [hrun]
      rfl
    · refine ⟨"assigned address ".data, (" for '" ++ a.Namespace ++ "-" ++ a.Name
        ++ "', but could not update object: " ++ e).data, ?_⟩
      simp [String.data_append, List.append_assoc]
    · intro addr
      rw [hrun]
      simp [LogEventAndFail, emptyTrace]

/-- Witness for C5: a failing update after `Assign` returned `10.0.0.5`
produces an error mentioning `10.0.0.5` and no `Unassign` call. -/
theorem C5_witness :
    (∃ m, (IpAddressCreatedOrUpdated prodController failUpdateEnv freshResource).1 =
        HandlerResult.fail m ∧ ("10.0.0.5" : String).data <:+: m.data) ∧
    (∀ addr, IpamCall.unassign addr ∉
      (IpAddressCreatedOrUpdated prodController failUpdateEnv freshResource).2.ipamCalls) :=
  C5_persistence_failure_orphans prodController failUpdateEnv freshResource
    "prod-default-foo" "10.0.0.5" "conflict" rfl rfl (Or.inl ⟨rfl, rfl⟩) rfl

/-- Every failure produced by `LogEventAndFail` carries its error message
as a Warning event in the trace. -/
theorem logEventAndFail_event (msg m : String) (t : Trace)
    (h : (LogEventAndFail msg t).1 = HandlerResult.fail m) :
    (m, true) ∈ (LogEventAndFail msg t).2.events := by
  unfold LogEventAndFail at h ⊢
  simp only [HandlerResult.fail.injEq] at h
  subst h
  simp

/-- Every non-nil error returned by `IpAddressCreatedOrUpdated` has been
emitted as a Warning event with the same message. -/
theorem created_fail_has_event (c : SharedController) (env : Env) (a : IpAddress)
    (m : String)
    (h : (IpAddressCreatedOrUpdated c env a).1 = HandlerResult.fail m) :
    (m, true) ∈ (IpAddressCreatedOrUpdated c env a).2.events := by
  revert h
  unfold IpAddressCreatedOrUpdated updateObject
  repeat' split
  all_goals intro h
  all_goals try exact logEventAndFail_event _ _ _ h
  all_goals exact absurd h (by simp)

/-- Every non-nil error returned by `IpAddressDeleted` has been emitted as
a Warning event with the same message. -/
theorem deleted_fail_has_event (c : SharedController) (env : Env) (a : IpAddress)
    (m : String)
    (h : (IpAddressDeleted c env a).1 = HandlerResult.fail m) :
    (m, true) ∈ (IpAddressDeleted c env a).2.events := by
  revert h
  unfold IpAddressDeleted
  repeat' split
  all_goals intro h
  all_goals try exact logEventAndFail_event _ _ _ h
  all_goals exact absurd h (by simp)

/-- Claim C8: whenever either handler returns a non-nil error, a Warning
event whose message equals the returned error text has been emitted
against the resource. -/
theorem C8_warning_event_on_failure (c : SharedController) (env : Env) (a : IpAddress) :
    (∀ m, (IpAddressCreatedOrUpdated c env a).1 = HandlerResult.fail m →
      (m, true) ∈ (IpAddressCreatedOrUpdated c env a).2.events) ∧
    (∀ m, (IpAddressDeleted c env a).1 = HandlerResult.fail m →
      (m, true) ∈ (IpAddressDeleted c env a).2.events) :=
  ⟨fun m h => created_fail_has_event c env a m h,
   fun m h => deleted_fail_has_event c env a m h⟩

/-- Witness for C8: a failed `Assign` yields an error whose text appears
as a Warning event. -/
theorem C8_witness :
    ("could not assign new address for 'default-foo': pool exhausted", true) ∈
      (IpAddressCreatedOrUpdated prodController failAssignEnv freshResource).2.events :=
  (C8_warning_event_on_failure prodController failAssignEnv freshResource).1
    "could not assign new address for 'default-foo': pool exhausted" rfl

end IpamShared
